import Mathlib

/-!
Shallow embedding of the CS573 narrative-similarity pipeline
(`vectorizer.py`, `db.py`, `pdf_reader.py`, `firm_sim_by_period.py`,
`comovement_new.py`) together with theorems about its specified behavior.

Python exceptions are modelled with `Except`; mutation is modelled by
explicit state passing (a function returns the new object state).
Floating-point numbers are modelled by real numbers; integer/string data
by `ℚ`, `ℕ`, `String`.
-/

open scoped RealInnerProductSpace

/-- `Except.isOk` as a plain boolean discriminator. -/
def isOkE {ε α : Type} : Except ε α → Bool
  | .ok _ => true
  | .error _ => false

/-- Boolean discriminator for the error case of `Except`. -/
def isErrorE {ε α : Type} : Except ε α → Bool
  | .ok _ => false
  | .error _ => true

/-- Equality of `Except` values is decidable when it is on both components. -/
instance exceptDecEq {ε α : Type} [DecidableEq ε] [DecidableEq α] :
    DecidableEq (Except ε α)
  | .ok x, .ok y =>
    if h : x = y then .isTrue (by rw [h])
    else .isFalse (by intro hh; cases hh; exact h rfl)
  | .ok _, .error _ => .isFalse (by intro h; cases h)
  | .error _, .ok _ => .isFalse (by intro h; cases h)
  | .error e, .error f =>
    if h : e = f then .isTrue (by rw [h])
    else .isFalse (by intro hh; cases hh; exact h rfl)

/-- Lexicographic comparison of character lists by code point, the order
Python string comparison and pandas sorting use. -/
def listCharLe : List Char → List Char → Bool
  | [], _ => true
  | _ :: _, [] => false
  | a :: as, b :: bs =>
    if a.toNat < b.toNat then true
    else if b.toNat < a.toNat then false
    else listCharLe as bs

/-- Python-style string comparison. -/
def strLe (a b : String) : Bool := listCharLe a.toList b.toList

/-- Insert `x` into `l` in front of the first element it compares below. -/
def insertB {α : Type} (le : α → α → Bool) (x : α) : List α → List α
  | [] => [x]
  | y :: ys => if le x y then x :: y :: ys else y :: insertB le x ys

/-- Insertion sort by a boolean comparison; models the sorted iteration
order of `sorted(...)`, `groupby` and `sort_values` (the theorems below
only use that sorting preserves membership). -/
def sortB {α : Type} (le : α → α → Bool) : List α → List α
  | [] => []
  | x :: xs => insertB le x (sortB le xs)

/- ===================== vectorizer.py : TF-IDF fallback ===================== -/

/-- A character counted as a word character by sklearn's default token
pattern `\b\w\w+\b` (ASCII scope): alphanumeric or underscore. -/
def isWordChar (c : Char) : Bool := c.isAlphanum || c == '_'

/-- Accumulate maximal runs of word characters; `cur` holds the current run
reversed.  Models regex token extraction with sklearn's default pattern. -/
def runsAux : List Char → List Char → List String
  | [], cur => if cur.isEmpty then [] else [String.mk cur.reverse]
  | c :: cs, cur =>
    if isWordChar c then runsAux cs (c :: cur)
    else if cur.isEmpty then runsAux cs cur
    else String.mk cur.reverse :: runsAux cs []

/-- sklearn `CountVectorizer` default analyzer: lowercase the text, split it
into maximal runs of word characters, keep tokens of length at least 2. -/
def sk_tokenize (s : String) : List String :=
  (runsAux (s.toList.map Char.toLower) []).filter (fun t => 2 ≤ t.length)

/-- Number of occurrences of term `t` in the token list `terms`. -/
def countTerm (terms : List String) (t : String) : ℕ :=
  (terms.filter (fun u => u == t)).length

/-- Models sklearn's frozen `ENGLISH_STOP_WORDS` list, applied by
`TfidfVectorizer(stop_words="english")`. -/
def english_stop_words : List String :=
  ["a", "about", "above", "across", "after", "afterwards", "again", "against",
   "all", "almost", "alone", "along", "already", "also", "although", "always",
   "am", "among", "amongst", "amoungst", "amount", "an", "and", "another",
   "any", "anyhow", "anyone", "anything", "anyway", "anywhere", "are",
   "around", "as", "at", "back", "be", "became", "because", "become",
   "becomes", "becoming", "been", "before", "beforehand", "behind", "being",
   "below", "beside", "besides", "between", "beyond", "bill", "both",
   "bottom", "but", "by", "call", "can", "cannot", "cant", "co", "con",
   "could", "couldnt", "cry", "de", "describe", "detail", "do", "done",
   "down", "due", "during", "each", "eg", "eight", "either", "eleven",
   "else", "elsewhere", "empty", "enough", "etc", "even", "ever", "every",
   "everyone", "everything", "everywhere", "except", "few", "fifteen",
   "fifty", "fill", "find", "fire", "first", "five", "for", "former",
   "formerly", "forty", "found", "four", "from", "front", "full", "further",
   "get", "give", "go", "had", "has", "hasnt", "have", "he", "hence", "her",
   "here", "hereafter", "hereby", "herein", "hereupon", "hers", "herself",
   "him", "himself", "his", "how", "however", "hundred", "i", "ie", "if",
   "in", "inc", "indeed", "interest", "into", "is", "it", "its", "itself",
   "keep", "last", "latter", "latterly", "least", "less", "ltd", "made",
   "many", "may", "me", "meanwhile", "might", "mill", "mine", "more",
   "moreover", "most", "mostly", "move", "much", "must", "my", "myself",
   "name", "namely", "neither", "never", "nevertheless", "next", "nine",
   "no", "nobody", "none", "noone", "nor", "not", "nothing", "now",
   "nowhere", "of", "off", "often", "on", "once", "one", "only", "onto",
   "or", "other", "others", "otherwise", "our", "ours", "ourselves", "out",
   "over", "own", "part", "per", "perhaps", "please", "put", "rather", "re",
   "same", "see", "seem", "seemed", "seeming", "seems", "serious",
   "several", "she", "should", "show", "side", "since", "sincere", "six",
   "sixty", "so", "some", "somehow", "someone", "something", "sometime",
   "sometimes", "somewhere", "still", "such", "system", "take", "ten",
   "than", "that", "the", "their", "them", "themselves", "then", "thence",
   "there", "thereafter", "thereby", "therefore", "therein", "thereupon",
   "these", "they", "thick", "thin", "third", "this", "those", "though",
   "three", "through", "throughout", "thru", "thus", "to", "together",
   "too", "top", "toward", "towards", "twelve", "twenty", "two", "un",
   "under", "until", "up", "upon", "us", "very", "via", "was", "we", "well",
   "were", "what", "whatever", "when", "whence", "whenever", "where",
   "whereafter", "whereas", "whereby", "wherein", "whereupon", "wherever",
   "whether", "which", "while", "whither", "who", "whoever", "whole",
   "whom", "whose", "why", "will", "with", "within", "without", "would",
   "yet", "you", "your", "yours", "yourself", "yourselves"]

/-- sklearn vocabulary construction for `TfidfVectorizer(max_features, stop_words)`:
tokenize the corpus, drop stop words, take the distinct terms; if more than
`max_features` remain, keep the `max_features` terms with the highest total
corpus frequency (ties broken by term order); the vocabulary is sorted. -/
def build_vocabulary (texts : List String) (stop_words : List String)
    (max_features : ℕ) : List String :=
  let terms := (texts.flatMap sk_tokenize).filter (fun t => !stop_words.contains t)
  let distinct := terms.dedup
  let kept :=
    if distinct.length ≤ max_features then distinct
    else (sortB (fun a b =>
      (countTerm terms b < countTerm terms a) ||
        ((countTerm terms b == countTerm terms a) && strLe a b)) distinct).take max_features
  sortB strLe kept

/-- State of `TfidfVectorizerWrapper`: the configured `_max_features` cap, the
corpus statistics learned by `_vectorizer.fit` (the fitted corpus and the
vocabulary built from it), and the `_fitted` flag. -/
structure TfidfVectorizerWrapper where
  max_features : ℕ
  corpus : List String
  vocab : List String
  fitted : Bool
deriving DecidableEq

/-- `TfidfVectorizerWrapper.__init__(max_features)`: nothing is fitted yet. -/
def TfidfVectorizerWrapper.init (max_features : ℕ) : TfidfVectorizerWrapper :=
  ⟨max_features, [], [], false⟩

/-- The wrapper's `dim` property: it returns the configured `_max_features`. -/
def TfidfVectorizerWrapper.dim (w : TfidfVectorizerWrapper) : ℕ := w.max_features

/-- Error message raised by `transform` before `fit` (Python `RuntimeError`). -/
def notFittedMsg : String := "Vectorizer must be fitted before transform()"

/-- `TfidfVectorizerWrapper.fit(texts)`: `self._vectorizer.fit(texts)` learns the
vocabulary (raising sklearn's empty-vocabulary `ValueError` when no term
survives tokenization and stop-word removal) and then `self._fitted = True`.
Returns the updated object state. -/
def TfidfVectorizerWrapper.fit (w : TfidfVectorizerWrapper) (texts : List String) :
    Except String TfidfVectorizerWrapper :=
  if (build_vocabulary texts english_stop_words w.max_features).isEmpty then
    .error "empty vocabulary; perhaps the documents only contain stop words"
  else .ok ⟨w.max_features, texts, build_vocabulary texts english_stop_words w.max_features, true⟩

/-- Number of fitted-corpus documents whose token list contains term `t`. -/
def docFreq (corpus : List String) (t : String) : ℕ :=
  (corpus.filter (fun d => (sk_tokenize d).contains t)).length

/-- sklearn smooth idf: `ln((1 + n_docs) / (1 + df(t))) + 1`. -/
noncomputable def skIdf (corpus : List String) (t : String) : ℝ :=
  Real.log ((1 + (corpus.length : ℝ)) / (1 + (docFreq corpus t : ℝ))) + 1

/-- sklearn row L2 normalization (`norm="l2"`): an all-zero row is returned
unchanged. -/
noncomputable def l2normalize (xs : List ℝ) : List ℝ :=
  if (xs.map (fun x => x * x)).sum = 0 then xs
  else xs.map (fun x => x / Real.sqrt ((xs.map (fun y => y * y)).sum))

/-- One row of `TfidfVectorizer.transform`: for each vocabulary term, term
frequency in the document times idf, then L2-normalized.  The row has one
entry per vocabulary term. -/
noncomputable def tfidfRow (w : TfidfVectorizerWrapper) (text : String) : List ℝ :=
  l2normalize (w.vocab.map (fun t =>
    (countTerm (sk_tokenize text) t : ℝ) * skIdf w.corpus t))

/-- `TfidfVectorizerWrapper.transform(texts)`: raises `RuntimeError` when the
instance is not fitted, otherwise returns one tf-idf row per input text. -/
noncomputable def TfidfVectorizerWrapper.transform (w : TfidfVectorizerWrapper)
    (texts : List String) : Except String (List (List ℝ)) :=
  if w.fitted then .ok (texts.map (tfidfRow w)) else .error notFittedMsg

/- ===================== vectorizer.py : finance variant and factory ===================== -/

/-- State of a successfully constructed `FinanceEmbeddingVectorizer`:
the model name, the options, the model's native embedding dimension
(`get_sentence_embedding_dimension()`), and the `_fitted` flag, which the
constructor sets to `True` (pretrained). -/
structure FinanceEmbeddingVectorizer where
  model_name : String
  normalize : Bool
  batch_size : ℕ
  dim : ℕ
  fitted : Bool
deriving DecidableEq

/-- The value returned by `get_vectorizer`: one of the two variants. -/
inductive VectorizerChoice where
  | finance (v : FinanceEmbeddingVectorizer)
  | tfidf (w : TfidfVectorizerWrapper)
deriving DecidableEq

/-- `get_vectorizer(prefer_finance, tfidf_dim, ...)`.  The effectful
`FinanceEmbeddingVectorizer(...)` construction (lazy import plus model load,
which may raise) is passed in as `constructFinance`.  When `prefer_finance`
is set the factory tries the finance variant and, on failure, executes
`raise e` — the `return TfidfVectorizerWrapper(...)` fallback line is
commented out in the source — so the original error is re-raised. -/
def get_vectorizer {ε : Type} (prefer_finance : Bool) (tfidf_dim : ℕ)
    (constructFinance : Except ε FinanceEmbeddingVectorizer) :
    Except ε VectorizerChoice :=
  if prefer_finance then
    match constructFinance with
    | .ok v => .ok (.finance v)
    | .error e => .error e
  else .ok (.tfidf (TfidfVectorizerWrapper.init tfidf_dim))

/- ===================== db.py : VectorStore ===================== -/

/-- One row of the `document_embeddings` table. -/
structure StoredRow where
  ticker : String
  doc_id : String
  content : String
  period : String
  embedding : List ℚ
deriving DecidableEq

/-- `VectorStore` state: the configured embedding dimension and the rows of
the backing table (connection handling is external I/O). -/
structure VectorStore where
  embed_dim : ℕ
  rows : List StoredRow
deriving DecidableEq

/-- A 2-D numpy array of floats: `ndim`, `shape = (shape0, shape1)`, and the
row data.  For a well-formed 2-D array `ndim = 2`, `data.length = shape0`
and every row has length `shape1`; iterating the array yields `data`. -/
structure NpMatrix where
  ndim : ℕ
  shape0 : ℕ
  shape1 : ℕ
  data : List (List ℚ)
deriving DecidableEq

/-- Rows produced by the `zip(doc_ids, contents, period, embeddings)` loop in
`insert_documents`: Python `zip` stops at the shortest input. -/
def zipRows (ticker : String) (doc_ids contents periods : List String)
    (embrows : List (List ℚ)) : List StoredRow :=
  (doc_ids.zip (contents.zip (periods.zip embrows))).map
    (fun q => ⟨ticker, q.1, q.2.1, q.2.2.1, q.2.2.2⟩)

/-- `VectorStore.insert_documents`: raises `ValueError` when
`embeddings.ndim != 2 or embeddings.shape[1] != self.embed_dim`, before
touching the table; otherwise inserts one row per zipped tuple inside a
single transaction. -/
def VectorStore.insert_documents (st : VectorStore) (ticker : String)
    (doc_ids contents periods : List String) (embeddings : NpMatrix) :
    Except String VectorStore :=
  if embeddings.ndim ≠ 2 ∨ embeddings.shape1 ≠ st.embed_dim then
    .error "DimensionMismatch: expected embeddings shape (N, embed_dim)"
  else
    .ok ⟨st.embed_dim, st.rows ++ zipRows ticker doc_ids contents periods embeddings.data⟩

/- ===================== pdf_reader.py ===================== -/

/-- The `Document` dataclass of `pdf_reader.py`. -/
structure Document where
  ticker : String
  doc_id : String
  text : String
  period : String
deriving DecidableEq

/-- One entry of the root directory iterated by `iter_documents`: its name,
whether it is a directory, and (for directories) the `*.pdf` files it
contains, each paired with the text `extract_text_from_pdf` produces for it
(PDF parsing itself is external to the repository). -/
structure DirEntry where
  name : String
  isDir : Bool
  pdfs : List (String × String)
deriving DecidableEq

/-- A character of Python's `str.strip()` default whitespace set (ASCII). -/
def pyIsSpace (c : Char) : Bool :=
  c == ' ' || c == '\t' || c == '\n' || c == '\r' || c == '\x0b' || c == '\x0c'

/-- `not text.strip()`: true exactly when every character is whitespace. -/
def pyWhitespaceOnly (s : String) : Bool := s.toList.all pyIsSpace

/-- Python `str.upper()` (ASCII scope): uppercase every character. -/
def pyUpper (s : String) : String := String.mk (s.toList.map Char.toUpper)

/-- Match of the regex `Q[1-4] \d{4}` anchored at the head of the character
list; on success returns the seven matched characters. -/
def quarterAt : List Char → Option (List Char)
  | 'Q' :: q :: ' ' :: d1 :: d2 :: d3 :: d4 :: _ =>
    if (q == '1' || q == '2' || q == '3' || q == '4') &&
        d1.isDigit && d2.isDigit && d3.isDigit && d4.isDigit then
      some ['Q', q, ' ', d1, d2, d3, d4]
    else none
  | _ => none

/-- `re.search(r'(Q[1-4] \d{4})', text)`: the leftmost match, scanning
positions left to right. -/
def findQuarter : List Char → Option (List Char)
  | [] => none
  | c :: cs =>
    match quarterAt (c :: cs) with
    | some m => some m
    | none => findQuarter cs

/-- The period assigned to a document: the first regex match in the text, or
the empty string when there is none. -/
def findPeriod (s : String) : String :=
  match findQuarter s.toList with
  | some m => String.mk m
  | none => ""

/-- `iter_documents(root_dir)`: walk the sorted entries of the root, skip
non-directories, and for every PDF (sorted) whose extracted text is not
whitespace-only yield a `Document` with the uppercased directory name as
ticker, the file name as doc id, and the first-match period. -/
def iter_documents (entries : List DirEntry) : List Document :=
  (sortB (fun a b => strLe a.name b.name) entries).flatMap (fun e =>
    if e.isDir then
      (sortB (fun a b => strLe a.1 b.1) e.pdfs).filterMap (fun pr =>
        if pyWhitespaceOnly pr.2 then none
        else some ⟨pyUpper e.name, pr.1, pr.2, findPeriod pr.2⟩)
    else [])

/- ===================== firm_sim_by_period.py ===================== -/

/-- sklearn row normalization used by `cosine_similarity`: divide by the L2
norm unless the norm is zero, in which case the row is left as is. -/
noncomputable def sk_normalize {n : ℕ} (a : EuclideanSpace ℝ (Fin n)) :
    EuclideanSpace ℝ (Fin n) :=
  if ‖a‖ = 0 then a else ‖a‖⁻¹ • a

/-- `sklearn.metrics.pairwise.cosine_similarity` on a pair of vectors:
the inner product of the two guarded-normalized vectors (so a zero vector
yields similarity 0 rather than NaN). -/
noncomputable def cosine_similarity {n : ℕ} (a b : EuclideanSpace ℝ (Fin n)) : ℝ :=
  ⟪sk_normalize a, sk_normalize b⟫

/-- One row of the metadata/embedding join in `firm_sim_by_period.main`,
after dropping rows with a missing embedding: the period, the ticker
(`ticker_x`), and the parsed document vector. -/
structure MergedRow (n : ℕ) where
  period : String
  ticker : String
  vec : EuclideanSpace ℝ (Fin n)

/-- `np.vstack(vecs).mean(axis=0)`: the element-wise mean of a list of
vectors. -/
noncomputable def meanVec {n : ℕ} (vs : List (EuclideanSpace ℝ (Fin n))) :
    EuclideanSpace ℝ (Fin n) :=
  ((vs.length : ℝ))⁻¹ • vs.sum

/-- A `SimilarityRecord` row of the output CSV. -/
structure SimilarityRecord where
  period : String
  ticker1 : String
  ticker2 : String
  sim : ℝ

/-- The grouping loop of `firm_sim_by_period.main`: group the merged rows by
period (pandas `groupby` iterates the distinct keys in sorted order), keep
only periods whose ticker set contains both `KO` and `PEP`, and emit one
record per kept period with the cosine similarity of the two firms' mean
vectors. -/
noncomputable def firm_sim_by_period {n : ℕ} (rows : List (MergedRow n)) :
    List SimilarityRecord :=
  (sortB strLe ((rows.map (fun r => r.period)).dedup)).filterMap
    (fun p =>
      if ((rows.filter (fun r => r.period == p)).any (fun r => r.ticker == "KO")) &&
          ((rows.filter (fun r => r.period == p)).any (fun r => r.ticker == "PEP")) then
        some ⟨p, "KO", "PEP",
          cosine_similarity
            (meanVec (((rows.filter (fun r => r.period == p)).filter
              (fun r => r.ticker == "KO")).map (fun r => r.vec)))
            (meanVec (((rows.filter (fun r => r.period == p)).filter
              (fun r => r.ticker == "PEP")).map (fun r => r.vec)))⟩
      else none)

/- ===================== comovement_new.py ===================== -/

/-- `series.clip(lower=-0.999999, upper=0.999999)` applied pointwise. -/
noncomputable def clip_corr (r : ℝ) : ℝ :=
  min (max r (-(999999 / 1000000))) (999999 / 1000000)

/-- `fisher_z`: clip the correlation, then `0.5 * ln((1 + r) / (1 - r))`. -/
noncomputable def fisher_z (r : ℝ) : ℝ :=
  0.5 * Real.log ((1 + clip_corr r) / (1 - clip_corr r))

/-- `fisher_inv`: the hyperbolic tangent. -/
noncomputable def fisher_inv (z : ℝ) : ℝ := Real.tanh z

/-- `pd.concat([a, b], axis=1).dropna()`: keep exactly the index positions
where both series have a value. -/
def dropnaPairs (rows : List (Option ℚ × Option ℚ)) : List (ℚ × ℚ) :=
  rows.filterMap (fun pr =>
    match pr with
    | (some a, some b) => some (a, b)
    | _ => none)

/-- `n * Σ xᵢ² - (Σ xᵢ)²`, the scaled sample variance appearing in the
Pearson correlation denominator. -/
def varTerm (xs : List ℚ) : ℚ :=
  (xs.length : ℚ) * (xs.map (fun x => x * x)).sum - (xs.sum) ^ 2

/-- `n * Σ xᵢyᵢ - (Σ xᵢ)(Σ yᵢ)`, the scaled covariance numerator. -/
def covTerm (ps : List (ℚ × ℚ)) : ℚ :=
  (ps.length : ℚ) * (ps.map (fun q => q.1 * q.2)).sum -
    (ps.map Prod.fst).sum * (ps.map Prod.snd).sum

/-- Pearson correlation of a full window, as pandas computes it: NaN
(modelled as `none`) when either window variance is zero, otherwise
`cov / sqrt(var_x * var_y)`. -/
noncomputable def corrOpt (ps : List (ℚ × ℚ)) : Option ℝ :=
  if varTerm (ps.map Prod.fst) = 0 ∨ varTerm (ps.map Prod.snd) = 0 then none
  else some ((covTerm ps : ℝ) /
    Real.sqrt ((varTerm (ps.map Prod.fst) : ℝ) * (varTerm (ps.map Prod.snd) : ℝ)))

/-- The trailing window of size `w` ending at position `t` (inclusive). -/
def rollingWindow (df : List (ℚ × ℚ)) (w t : ℕ) : List (ℚ × ℚ) :=
  (df.take (t + 1)).drop (t + 1 - w)

/-- `compute_rolling_corr(ret_a, ret_b, window)`: align the two series and
drop missing rows; raise `ValueError` when fewer than `window` overlapping
rows remain; otherwise compute the rolling correlation — positions with
fewer than `window` prior rows are NaN (pandas default
`min_periods = window`) — and `dropna()` the result.  Each surviving entry
is returned with its 0-based position in the overlap. -/
noncomputable def compute_rolling_corr (rows : List (Option ℚ × Option ℚ))
    (window : ℕ) : Except String (List (ℕ × ℝ)) :=
  if (dropnaPairs rows).length < window then
    .error "InsufficientOverlap: not enough overlapping data for the window"
  else
    .ok ((List.range (dropnaPairs rows).length).filterMap (fun t =>
      if t + 1 < window then none
      else (corrOpt (rollingWindow (dropnaPairs rows) window t)).map (fun v => (t, v))))

/- ===================== concrete instances used by witnesses ===================== -/

/-- The wrapper state produced by fitting the fallback vectorizer on the
one-document corpus `["apple apple"]`: the learned vocabulary is the single
term `apple`. -/
def appleFit : TfidfVectorizerWrapper := ⟨512, ["apple apple"], ["apple"], true⟩

/-- Rows used in the concrete period-coverage scenario: the KO entity
appears in 2020Q1 and 2020Q2, the PEP entity only in 2020Q2. -/
noncomputable def c2vec : EuclideanSpace ℝ (Fin 1) := fun _ => 1

/-- Concrete merged rows for the period-coverage scenario. -/
noncomputable def c2rows : List (MergedRow 1) :=
  [⟨"2020Q1", "KO", c2vec⟩, ⟨"2020Q2", "KO", c2vec⟩, ⟨"2020Q2", "PEP", c2vec⟩]

/-- A concrete document tree: a `ko` directory with one PDF containing a
quarter tag, a stray non-directory entry, and a `pep` directory whose PDF
yields only whitespace. -/
def c8entries : List DirEntry :=
  [⟨"ko", true, [("a.pdf", "Q1 2019 results")]⟩,
   ⟨"notes.txt", false, []⟩,
   ⟨"pep", true, [("b.pdf", "   ")]⟩]

/-- Concrete aligned return rows with three jointly present observations. -/
def c7rows : List (Option ℚ × Option ℚ) :=
  [(some 0, some 0), (none, some 1), (some 1, some 2), (some 2, some 1)]

/- ===================== helper lemmas ===================== -/

/-- Membership is preserved by `insertB`. -/
theorem mem_insertB {α : Type} (le : α → α → Bool) (x a : α) (l : List α) :
    a ∈ insertB le x l ↔ a = x ∨ a ∈ l := by
  induction l with
  | nil => simp [insertB]
  | cons y ys ih =>
    simp only [insertB]
    split
    · simp [List.mem_cons]
    · simp only [List.mem_cons, ih]
      tauto

/-- Membership is preserved by `sortB`. -/
theorem mem_sortB {α : Type} (le : α → α → Bool) (a : α) (l : List α) :
    a ∈ sortB le l ↔ a ∈ l := by
  induction l with
  | nil => simp [sortB]
  | cons x xs ih => simp [sortB, mem_insertB, ih]

/-- L2 normalization does not change the length of a row. -/
theorem length_l2normalize (xs : List ℝ) : (l2normalize xs).length = xs.length := by
  unfold l2normalize
  split <;> simp

/-- A tf-idf row has one entry per vocabulary term. -/
theorem tfidfRow_length (w : TfidfVectorizerWrapper) (t : String) :
    (tfidfRow w t).length = w.vocab.length := by
  unfold tfidfRow
  rw [length_l2normalize]
  simp

/- ===================== claim theorems ===================== -/

/-- C1: when the factory is called with the preference flag set and the
construction of the pretrained finance backend fails with an error, the
factory call fails with that same error and never returns the TF-IDF
fallback (or any other vectorizer). -/
theorem c1_factory_reraises {ε : Type} (e : ε) (tfidf_dim : ℕ)
    (constructFinance : Except ε FinanceEmbeddingVectorizer)
    (h : constructFinance = .error e) :
    get_vectorizer true tfidf_dim constructFinance = .error e ∧
      ∀ v : VectorizerChoice, get_vectorizer true tfidf_dim constructFinance ≠ .ok v := by
  subst h
  refine ⟨rfl, ?_⟩
  intro v hv
  simp [get_vectorizer] at hv

/-- Witness for C1 at a concrete failing construction. -/
theorem c1_factory_reraises_witness :
    get_vectorizer true 512 (Except.error "BackendUnavailable") =
      (Except.error "BackendUnavailable" : Except String VectorizerChoice) ∧
      ∀ v : VectorizerChoice,
        get_vectorizer true 512 (Except.error "BackendUnavailable") ≠ Except.ok v :=
  c1_factory_reraises "BackendUnavailable" 512 (Except.error "BackendUnavailable") rfl

/-- C9: `transform` on a freshly constructed (unfit) fallback vectorizer
fails with the `NotFitted` error, and after any successful `fit` call the
resulting instance's `transform` no longer fails. -/
theorem c9_transform_requires_fit (mf : ℕ) (w w' : TfidfVectorizerWrapper)
    (texts texts' : List String) :
    (TfidfVectorizerWrapper.init mf).transform texts = .error notFittedMsg ∧
      (w.fit texts = .ok w' → isOkE (w'.transform texts') = true) := by
  constructor
  · simp [TfidfVectorizerWrapper.transform, TfidfVectorizerWrapper.init]
  · intro h
    have hf : w'.fitted = true := by
      unfold TfidfVectorizerWrapper.fit at h
      split at h
      · cases h
      · cases h
        rfl
    simp [TfidfVectorizerWrapper.transform, hf, isOkE]

/-- Witness for C9: fitting on a concrete corpus succeeds and enables
`transform`. -/
theorem c9_transform_requires_fit_witness :
    (TfidfVectorizerWrapper.init 512).transform ["x"] = .error notFittedMsg ∧
      isOkE (appleFit.transform ["apple"]) = true := by
  have h := c9_transform_requires_fit 512 (TfidfVectorizerWrapper.init 512)
    appleFit ["apple apple"] ["apple"]
  exact ⟨(c9_transform_requires_fit 512 (TfidfVectorizerWrapper.init 512)
    appleFit ["x"] ["x"]).1, h.2 (by decide)⟩

/-- C3 (divergence witness): fitting the fallback vectorizer on the corpus
`["apple apple"]` succeeds with a one-term vocabulary, the instance's `dim`
property still reports the configured cap 512, but `transform` returns
vectors of width 1, not 512. -/
theorem c3_transform_width_ne_dim :
    (TfidfVectorizerWrapper.init 512).fit ["apple apple"] = .ok appleFit ∧
      appleFit.dim = 512 ∧
      Except.map (fun rows => rows.map List.length) (appleFit.transform ["apple"]) =
        .ok [1] ∧ (1 : ℕ) ≠ 512 := by
  refine ⟨by decide, rfl, ?_, by decide⟩
  have hlen : (tfidfRow ⟨512, ["apple apple"], ["apple"], true⟩ "apple").length = 1 := by
    rw [tfidfRow_length]
    rfl
  simp [TfidfVectorizerWrapper.transform, appleFit, Except.map, hlen]

/-- C4: bulk insert validates the embeddings shape before touching the
table — a batch whose shape is not `(N, embed_dim)` makes the call fail
with the dimension-mismatch error and leaves the store unchanged — and on a
well-shaped batch with matching sequence lengths all `N` rows are appended
in one call. -/
theorem c4_insert_validates (st : VectorStore) (ticker : String)
    (doc_ids contents periods : List String) (emb : NpMatrix) :
    (emb.ndim ≠ 2 ∨ emb.shape1 ≠ st.embed_dim →
      st.insert_documents ticker doc_ids contents periods emb =
        .error "DimensionMismatch: expected embeddings shape (N, embed_dim)") ∧
    (∀ n : ℕ, emb.ndim = 2 → emb.shape1 = st.embed_dim →
      doc_ids.length = n → contents.length = n → periods.length = n →
      emb.data.length = n →
      st.insert_documents ticker doc_ids contents periods emb =
        .ok ⟨st.embed_dim, st.rows ++ zipRows ticker doc_ids contents periods emb.data⟩ ∧
      (zipRows ticker doc_ids contents periods emb.data).length = n) := by
  constructor
  · intro h
    simp only [VectorStore.insert_documents, if_pos h]
  · intro n h2 hdim hd hc hp he
    constructor
    · simp only [VectorStore.insert_documents, h2, hdim]
      simp
    · simp [zipRows, hd, hc, hp, he]

/-- Witness for C4: a mismatched batch errors; a matched batch of one row
inserts exactly one row. -/
theorem c4_insert_validates_witness :
    VectorStore.insert_documents ⟨2, []⟩ "KO" ["d1"] ["c1"] ["p1"] ⟨2, 1, 3, [[1, 2, 3]]⟩ =
      .error "DimensionMismatch: expected embeddings shape (N, embed_dim)" ∧
    (VectorStore.insert_documents ⟨2, []⟩ "KO" ["d1"] ["c1"] ["p1"] ⟨2, 1, 2, [[1, 2]]⟩ =
      .ok ⟨2, ([] : List StoredRow) ++ zipRows "KO" ["d1"] ["c1"] ["p1"] [[1, 2]]⟩ ∧
      (zipRows "KO" ["d1"] ["c1"] ["p1"] [[1, 2]]).length = 1) :=
  ⟨(c4_insert_validates ⟨2, []⟩ "KO" ["d1"] ["c1"] ["p1"] ⟨2, 1, 3, [[1, 2, 3]]⟩).1
      (Or.inr (by decide)),
    (c4_insert_validates ⟨2, []⟩ "KO" ["d1"] ["c1"] ["p1"] ⟨2, 1, 2, [[1, 2]]⟩).2
      1 rfl rfl rfl rfl rfl rfl⟩

/-- C10: on a well-shaped embeddings batch, bulk insert performs no length
check across the parallel sequences: it succeeds and appends exactly
`min(len(doc_ids), len(contents), len(periods), n_rows)` rows, dropping
unpaired trailing elements. -/
theorem c10_insert_zip_truncates (st : VectorStore) (ticker : String)
    (doc_ids contents periods : List String) (emb : NpMatrix)
    (h2 : emb.ndim = 2) (hdim : emb.shape1 = st.embed_dim) :
    st.insert_documents ticker doc_ids contents periods emb =
      .ok ⟨st.embed_dim, st.rows ++ zipRows ticker doc_ids contents periods emb.data⟩ ∧
    (zipRows ticker doc_ids contents periods emb.data).length =
      min doc_ids.length (min contents.length (min periods.length emb.data.length)) := by
  constructor
  · simp only [VectorStore.insert_documents, h2, hdim]
    simp
  · simp [zipRows]

/-- Witness for C10: two doc ids but a single content, period and embedding
row — the call succeeds and appends exactly one row. -/
theorem c10_insert_zip_truncates_witness :
    VectorStore.insert_documents ⟨2, []⟩ "KO" ["d1", "d2"] ["c1"] ["p1", "p2"]
        ⟨2, 1, 2, [[1, 2]]⟩ =
      .ok ⟨2, ([] : List StoredRow) ++ zipRows "KO" ["d1", "d2"] ["c1"] ["p1", "p2"] [[1, 2]]⟩ ∧
    (zipRows "KO" ["d1", "d2"] ["c1"] ["p1", "p2"] [[1, 2]]).length =
      min 2 (min 1 (min 2 1)) :=
  c10_insert_zip_truncates ⟨2, []⟩ "KO" ["d1", "d2"] ["c1"] ["p1", "p2"]
    ⟨2, 1, 2, [[1, 2]]⟩ rfl rfl

/-- C2: the aggregation engine emits a similarity record for a period if
and only if both target entities have at least one document vector in that
period; a period in which only one entity appears is excluded entirely. -/
theorem c2_period_iff_both_tickers {n : ℕ} (rows : List (MergedRow n)) (p : String) :
    (∃ rec ∈ firm_sim_by_period rows, rec.period = p) ↔
      ((∃ r ∈ rows, r.period = p ∧ r.ticker = "KO") ∧
        (∃ r ∈ rows, r.period = p ∧ r.ticker = "PEP")) := by
  constructor
  · rintro ⟨rec, hrec, hp⟩
    rw [firm_sim_by_period] at hrec
    simp only [List.mem_filterMap] at hrec
    obtain ⟨p', _, hf⟩ := hrec
    split at hf
    next hc =>
      cases hf
      simp only [SimilarityRecord.period] at hp
      subst hp
      simp only [Bool.and_eq_true, List.any_eq_true, List.mem_filter, beq_iff_eq] at hc
      obtain ⟨⟨rko, ⟨hmem, hper⟩, ht⟩, ⟨rp, ⟨hmem2, hper2⟩, ht2⟩⟩ := hc
      exact ⟨⟨rko, hmem, hper, by simpa using ht⟩, ⟨rp, hmem2, hper2, by simpa using ht2⟩⟩
    next => cases hf
  · rintro ⟨⟨rko, hkomem, hkop, hkot⟩, rpep, hpmem, hpp, hpt⟩
    have hko : (rows.filter (fun r => r.period == p)).any (fun r => r.ticker == "KO") = true := by
      rw [List.any_eq_true]
      exact ⟨rko, List.mem_filter.mpr ⟨hkomem, by simp [hkop]⟩, by simp [hkot]⟩
    have hpe : (rows.filter (fun r => r.period == p)).any (fun r => r.ticker == "PEP") = true := by
      rw [List.any_eq_true]
      exact ⟨rpep, List.mem_filter.mpr ⟨hpmem, by simp [hpp]⟩, by simp [hpt]⟩
    refine ⟨⟨p, "KO", "PEP",
        cosine_similarity
          (meanVec (((rows.filter (fun r => r.period == p)).filter
            (fun r => r.ticker == "KO")).map (fun r => r.vec)))
          (meanVec (((rows.filter (fun r => r.period == p)).filter
            (fun r => r.ticker == "PEP")).map (fun r => r.vec)))⟩,
      ?_, rfl⟩
    rw [firm_sim_by_period]
    refine List.mem_filterMap.mpr ⟨p, ?_, ?_⟩
    · rw [mem_sortB, List.mem_dedup, List.mem_map]
      exact ⟨rko, hkomem, hkop⟩
    · simp [hko, hpe]

/-- Witness for C2: with KO present in both 2020Q1 and 2020Q2 but PEP only
in 2020Q2, a record is emitted for 2020Q2 and none for 2020Q1. -/
theorem c2_period_iff_both_tickers_witness :
    (∃ rec ∈ firm_sim_by_period c2rows, rec.period = "2020Q2") ∧
      ¬(∃ rec ∈ firm_sim_by_period c2rows, rec.period = "2020Q1") := by
  constructor
  · exact (c2_period_iff_both_tickers c2rows "2020Q2").mpr
      ⟨⟨⟨"2020Q2", "KO", c2vec⟩, by simp [c2rows], rfl, rfl⟩,
        ⟨⟨"2020Q2", "PEP", c2vec⟩, by simp [c2rows], rfl, rfl⟩⟩
  · intro h
    obtain ⟨-, rp, hmem, hper, ht⟩ := (c2_period_iff_both_tickers c2rows "2020Q1").mp h
    simp only [c2rows, List.mem_cons, List.not_mem_nil, or_false] at hmem
    rcases hmem with rfl | rfl | rfl
    · simp at ht
    · simp at ht
    · simp at hper

/-- `findQuarter` returns nothing exactly when no position matches. -/
theorem findQuarter_eq_none_iff (cs : List Char) :
    findQuarter cs = none ↔ ∀ i, quarterAt (cs.drop i) = none := by
  induction cs with
  | nil =>
    constructor
    · intro _ i
      rw [List.drop_nil]
      rfl
    · intro _
      rfl
  | cons c cs ih =>
    rw [findQuarter]
    cases hq : quarterAt (c :: cs) with
    | some m =>
      simp only []
      constructor
      · intro h
        cases h
      · intro h
        have h0 := h 0
        rw [List.drop_zero] at h0
        rw [h0] at hq
        cases hq
    | none =>
      simp only []
      rw [ih]
      constructor
      · intro h i
        cases i with
        | zero =>
          rw [List.drop_zero]
          exact hq
        | succ j =>
          rw [List.drop_succ_cons]
          exact h j
      · intro h j
        have := h (j + 1)
        rwa [List.drop_succ_cons] at this

/-- `findQuarter` returns the match at the first matching position. -/
theorem findQuarter_eq_some_of (cs : List Char) (i : ℕ) (m : List Char)
    (hmatch : quarterAt (cs.drop i) = some m)
    (hbefore : ∀ j, j < i → quarterAt (cs.drop j) = none) :
    findQuarter cs = some m := by
  induction cs generalizing i with
  | nil =>
    rw [List.drop_nil] at hmatch
    cases hmatch
  | cons c cs ih =>
    cases i with
    | zero =>
      rw [List.drop_zero] at hmatch
      rw [findQuarter, hmatch]
    | succ j =>
      have h0 : quarterAt (c :: cs) = none := by
        have := hbefore 0 (Nat.succ_pos j)
        rwa [List.drop_zero] at this
      rw [findQuarter, h0]
      simp only []
      rw [List.drop_succ_cons] at hmatch
      exact ih j hmatch (fun k hk => by
        have := hbefore (k + 1) (Nat.succ_lt_succ hk)
        rwa [List.drop_succ_cons] at this)

/-- A successful `findQuarter` result comes from some matching position. -/
theorem findQuarter_some_pos (cs m : List Char) (h : findQuarter cs = some m) :
    ∃ i, quarterAt (cs.drop i) = some m := by
  induction cs with
  | nil => cases h
  | cons c cs ih =>
    rw [findQuarter] at h
    split at h
    next heq =>
      cases h
      exact ⟨0, by rw [List.drop_zero]; exact heq⟩
    next heq =>
      obtain ⟨i, hi⟩ := ih h
      exact ⟨i + 1, by rwa [List.drop_succ_cons]⟩

/-- A successful pattern match is a nonempty character list. -/
theorem quarterAt_ne_nil (cs m : List Char) (h : quarterAt cs = some m) : m ≠ [] := by
  unfold quarterAt at h
  split at h
  · split at h
    · cases h
      simp
    · cases h
  · cases h

/-- C8: a document file under an entity subdirectory yields a `Document`
record if and only if its extracted text is not whitespace-only; the yielded
record carries the uppercased subdirectory name as its entity id and, as its
period, the leftmost substring matching `Q[1-4] \d{4}` (or the empty string
when no position of the text matches). -/
theorem c8_extractor_yield (entries : List DirEntry) (d : Document) (s : String) :
    (d ∈ iter_documents entries ↔
      ∃ e ∈ entries, e.isDir = true ∧ ∃ pr ∈ e.pdfs, pyWhitespaceOnly pr.2 = false ∧
        d = ⟨pyUpper e.name, pr.1, pr.2, findPeriod pr.2⟩) ∧
    (findPeriod s = "" ↔ ∀ i, quarterAt (s.toList.drop i) = none) ∧
    (∀ i m, quarterAt (s.toList.drop i) = some m →
      (∀ j, j < i → quarterAt (s.toList.drop j) = none) →
      findPeriod s = String.mk m) := by
  refine ⟨?_, ?_, ?_⟩
  · rw [iter_documents]
    simp only [List.mem_flatMap, mem_sortB]
    constructor
    · rintro ⟨e, he, hd⟩
      refine ⟨e, he, ?_⟩
      by_cases hdir : e.isDir = true
      · rw [if_pos hdir] at hd
        simp only [List.mem_filterMap, mem_sortB] at hd
        obtain ⟨pr, hpr, hg⟩ := hd
        split at hg
        next => cases hg
        next hws =>
          cases hg
          exact ⟨hdir, pr, hpr, by simpa using hws, rfl⟩
      · rw [if_neg hdir] at hd
        cases hd
    · rintro ⟨e, he, hdir, pr, hpr, hws, rfl⟩
      refine ⟨e, he, ?_⟩
      rw [if_pos hdir]
      simp only [List.mem_filterMap, mem_sortB]
      exact ⟨pr, hpr, by simp [hws]⟩
  · rw [findPeriod]
    cases hq : findQuarter s.toList with
    | none =>
      simp only []
      exact ⟨fun _ => (findQuarter_eq_none_iff s.toList).mp hq, fun _ => trivial⟩
    | some m =>
      simp only []
      constructor
      · intro h
        have hm : m = [] := by
          have := congrArg String.data h
          simpa using this
        obtain ⟨i, hi⟩ := findQuarter_some_pos s.toList m hq
        exact absurd hm (quarterAt_ne_nil _ _ hi)
      · intro h
        rw [(findQuarter_eq_none_iff s.toList).mpr h] at hq
        cases hq
  · intro i m hm hb
    rw [findPeriod, findQuarter_eq_some_of s.toList i m hm hb]

/-- Witness for C8: the non-whitespace PDF is yielded with uppercased
ticker and first-match period; a leftmost match at position 1 is returned
when position 0 does not match. -/
theorem c8_extractor_yield_witness :
    ((⟨"KO", "a.pdf", "Q1 2019 results", "Q1 2019"⟩ : Document) ∈ iter_documents c8entries) ∧
      findPeriod "xQ2 2020 tail" = String.mk ['Q', '2', ' ', '2', '0', '2', '0'] := by
  constructor
  · exact (c8_extractor_yield c8entries ⟨"KO", "a.pdf", "Q1 2019 results", "Q1 2019"⟩ "").1.mpr
      ⟨⟨"ko", true, [("a.pdf", "Q1 2019 results")]⟩, by simp [c8entries],
        rfl, ("a.pdf", "Q1 2019 results"), by simp, by decide, by decide⟩
  · exact (c8_extractor_yield c8entries ⟨"", "", "", ""⟩ "xQ2 2020 tail").2.2 1
      ['Q', '2', ' ', '2', '0', '2', '0'] (by decide)
      (fun j hj => by
        cases j with
        | zero => decide
        | succ k => exact absurd hj (by omega))

/-- C7: the rolling-correlation computation fails with the
insufficient-overlap error exactly when fewer than `window` jointly present
return observations exist; on success every emitted position has a full
window behind it (the first `window - 1` positions are dropped). -/
theorem c7_rolling_corr_overlap (rows : List (Option ℚ × Option ℚ)) (window : ℕ) :
    (isErrorE (compute_rolling_corr rows window) = true ↔
      (dropnaPairs rows).length < window) ∧
    (∀ res, compute_rolling_corr rows window = .ok res →
      ∀ pr ∈ res, window - 1 ≤ pr.1) := by
  constructor
  · rw [compute_rolling_corr]
    split
    next h => simp [isErrorE, h]
    next h => simp [isErrorE, h]
  · intro res hres pr hpr
    rw [compute_rolling_corr] at hres
    split at hres
    next => cases hres
    next h =>
      cases hres
      simp only [List.mem_filterMap, List.mem_range] at hpr
      obtain ⟨t, ht, hsome⟩ := hpr
      split at hsome
      next => cases hsome
      next hnot =>
        cases hco : corrOpt (rollingWindow (dropnaPairs rows) window t) with
        | none =>
          rw [hco] at hsome
          cases hsome
        | some v =>
          rw [hco] at hsome
          cases hsome
          simp only []
          omega

/-- Witness for C7: three overlapping observations against a five-day
window fail with the insufficient-overlap error. -/
theorem c7_rolling_corr_overlap_witness :
    isErrorE (compute_rolling_corr c7rows 5) = true :=
  (c7_rolling_corr_overlap c7rows 5).1.mpr (by decide)

/-- A guard-normalized vector has norm at most one. -/
theorem norm_sk_normalize_le_one {n : ℕ} (a : EuclideanSpace ℝ (Fin n)) :
    ‖sk_normalize a‖ ≤ 1 := by
  unfold sk_normalize
  split
  next h =>
    rw [h]
    norm_num
  next h =>
    rw [norm_smul, norm_inv, norm_norm, inv_mul_cancel₀ h]

/-- C5: the engine's cosine similarity is symmetric, lies in `[-1, 1]`,
equals `dot(a,b) / (norm a * norm b)` when both norms are nonzero, and is
exactly 0 (not NaN) when either vector has norm zero. -/
theorem c5_cosine_properties {n : ℕ} (a b : EuclideanSpace ℝ (Fin n)) :
    cosine_similarity a b = cosine_similarity b a ∧
      -1 ≤ cosine_similarity a b ∧ cosine_similarity a b ≤ 1 ∧
      (‖a‖ ≠ 0 → ‖b‖ ≠ 0 → cosine_similarity a b = ⟪a, b⟫ / (‖a‖ * ‖b‖)) ∧
      ((‖a‖ = 0 ∨ ‖b‖ = 0) → cosine_similarity a b = 0) := by
  have habs : |cosine_similarity a b| ≤ 1 := by
    calc |cosine_similarity a b| ≤ ‖sk_normalize a‖ * ‖sk_normalize b‖ :=
          abs_real_inner_le_norm _ _
      _ ≤ 1 := by
          have h1 := norm_sk_normalize_le_one a
          have h2 := norm_sk_normalize_le_one b
          have h3 := norm_nonneg (sk_normalize a)
          have h4 := norm_nonneg (sk_normalize b)
          nlinarith
  refine ⟨real_inner_comm _ _, (abs_le.mp habs).1, (abs_le.mp habs).2, ?_, ?_⟩
  · intro ha hb
    unfold cosine_similarity sk_normalize
    rw [if_neg ha, if_neg hb, real_inner_smul_left, real_inner_smul_right]
    field_simp
  · intro h
    rcases h with ha | hb
    · have : a = 0 := norm_eq_zero.mp ha
      subst this
      unfold cosine_similarity sk_normalize
      simp
    · have : b = 0 := norm_eq_zero.mp hb
      subst this
      unfold cosine_similarity sk_normalize
      simp

/-- Witness for C5 at a concrete nonzero vector. -/
theorem c5_cosine_properties_witness :
    cosine_similarity c2vec c2vec = ⟪c2vec, c2vec⟫ / (‖c2vec‖ * ‖c2vec‖) ∧
      cosine_similarity c2vec c2vec ≤ 1 := by
  have hne : ‖c2vec‖ ≠ 0 := by
    rw [norm_ne_zero_iff]
    intro h
    have h0 := congrFun h 0
    norm_num [c2vec] at h0
  exact ⟨(c5_cosine_properties c2vec c2vec).2.2.2.1 hne hne,
    (c5_cosine_properties c2vec c2vec).2.2.1⟩

/-- The inverse hyperbolic tangent identity: for `c` strictly inside
`(-1, 1)`, `tanh (0.5 * ln ((1+c)/(1-c))) = c`. -/
theorem tanh_half_log (c : ℝ) (h1 : -1 < c) (h2 : c < 1) :
    Real.tanh (0.5 * Real.log ((1 + c) / (1 - c))) = c := by
  have h1c : (0 : ℝ) < 1 - c := by linarith
  have h2c : (0 : ℝ) < 1 + c := by linarith
  have ht : 0 < (1 + c) / (1 - c) := div_pos h2c h1c
  have hexp2 : Real.exp (0.5 * Real.log ((1 + c) / (1 - c))) *
      Real.exp (0.5 * Real.log ((1 + c) / (1 - c))) = (1 + c) / (1 - c) := by
    rw [← Real.exp_add]
    rw [show 0.5 * Real.log ((1 + c) / (1 - c)) + 0.5 * Real.log ((1 + c) / (1 - c)) =
      Real.log ((1 + c) / (1 - c)) by ring]
    exact Real.exp_log ht
  have hu : 0 < Real.exp (0.5 * Real.log ((1 + c) / (1 - c))) := Real.exp_pos _
  rw [Real.tanh_eq_sinh_div_cosh, Real.sinh_eq, Real.cosh_eq, Real.exp_neg]
  set u := Real.exp (0.5 * Real.log ((1 + c) / (1 - c))) with hudef
  have hne : u ≠ 0 := ne_of_gt hu
  have husq : u * u * (1 - c) = 1 + c := by
    rw [hexp2]
    field_simp
  have hden : (0 : ℝ) < u + u⁻¹ := by positivity
  field_simp
  nlinarith [husq]

/-- C6: clipping bounds the Fisher z-transform (never infinite) and the
`tanh` inverse recovers the input exactly on the clip range and to within
`1e-6` — the deviation the clip forces — on all of `(-1, 1)`. -/
theorem c6_fisher_z_roundtrip (r : ℝ) :
    |fisher_z r| ≤ 0.5 * Real.log 1999999 ∧
      (|r| ≤ 999999 / 1000000 → fisher_inv (fisher_z r) = r) ∧
      (-1 < r → r < 1 → |fisher_inv (fisher_z r) - r| < 1 / 1000000) := by
  have hBle : clip_corr r ≤ 999999 / 1000000 := min_le_right _ _
  have hBge : -(999999 / 1000000) ≤ clip_corr r :=
    le_min (le_max_right _ _) (by norm_num)
  have hlt1 : clip_corr r < 1 := lt_of_le_of_lt hBle (by norm_num)
  have hgt1 : -1 < clip_corr r := lt_of_lt_of_le (by norm_num) hBge
  have hround : fisher_inv (fisher_z r) = clip_corr r := by
    rw [fisher_inv, fisher_z]
    exact tanh_half_log _ hgt1 hlt1
  have hclip_id : |r| ≤ 999999 / 1000000 → clip_corr r = r := by
    intro habs
    unfold clip_corr
    rw [max_eq_left (abs_le.mp habs).1, min_eq_left (abs_le.mp habs).2]
  refine ⟨?_, ?_, ?_⟩
  · rw [fisher_z]
    have h1c : (0 : ℝ) < 1 - clip_corr r := by linarith
    have h2c : (0 : ℝ) < 1 + clip_corr r := by linarith
    have hypos : 0 < (1 + clip_corr r) / (1 - clip_corr r) := div_pos h2c h1c
    have hup : (1 + clip_corr r) / (1 - clip_corr r) ≤ 1999999 := by
      rw [div_le_iff₀ h1c]
      linarith
    have hlo : (1 : ℝ) / 1999999 ≤ (1 + clip_corr r) / (1 - clip_corr r) := by
      rw [le_div_iff₀ h1c]
      linarith
    have hlog_up : Real.log ((1 + clip_corr r) / (1 - clip_corr r)) ≤ Real.log 1999999 :=
      (Real.log_le_log_iff hypos (by norm_num)).mpr hup
    have hlog_lo : -Real.log 1999999 ≤
        Real.log ((1 + clip_corr r) / (1 - clip_corr r)) := by
      rw [← Real.log_inv, ← one_div]
      exact (Real.log_le_log_iff (by norm_num) hypos).mpr hlo
    have habslog : |Real.log ((1 + clip_corr r) / (1 - clip_corr r))| ≤
        Real.log 1999999 := abs_le.mpr ⟨hlog_lo, hlog_up⟩
    calc |0.5 * Real.log ((1 + clip_corr r) / (1 - clip_corr r))|
        = 0.5 * |Real.log ((1 + clip_corr r) / (1 - clip_corr r))| := by
          rw [abs_mul]
          norm_num
      _ ≤ 0.5 * Real.log 1999999 := by linarith
  · intro habs
    rw [hround, hclip_id habs]
  · intro hm1 h1
    rw [hround]
    by_cases hB : |r| ≤ 999999 / 1000000
    · rw [hclip_id hB, sub_self, abs_zero]
      norm_num
    · push_neg at hB
      rcases lt_abs.mp hB with hr | hr
      · have hclip : clip_corr r = 999999 / 1000000 := by
          unfold clip_corr
          rw [max_eq_left (by linarith), min_eq_right (by linarith)]
        rw [hclip, abs_of_nonpos (by linarith)]
        linarith
      · have hclip : clip_corr r = -(999999 / 1000000) := by
          unfold clip_corr
          rw [max_eq_right (by linarith), min_eq_left (by linarith)]
        rw [hclip, abs_of_nonneg (by linarith)]
        linarith

/-- Witness for C6 at the correlation value 0. -/
theorem c6_fisher_z_roundtrip_witness :
    |fisher_z 0| ≤ 0.5 * Real.log 1999999 ∧ fisher_inv (fisher_z 0) = 0 ∧
      |fisher_inv (fisher_z 0) - 0| < 1 / 1000000 :=
  ⟨(c6_fisher_z_roundtrip 0).1, (c6_fisher_z_roundtrip 0).2.1 (by norm_num),
    (c6_fisher_z_roundtrip 0).2.2 (by norm_num) (by norm_num)⟩
